import Mathlib

/-!
Verification of the file-compression pipeline of this repository: the
dispatcher, image ladder, generic gzip branch and `formatBytes` helper in
`src/routes/compression.js`, and the PDF rasterizing compressor
`compressPdf` in `src/utils/pdfCompressor.js`.

File contents are modelled as lists of byte values (`List Nat`), the
filesystem effects of the route handler as explicit state, and the external
encoders (sharp, the pdfjs render canvas) as oracle functions passed to the
embedded control flow, which is translated clause by clause from the
JavaScript source.
-/

namespace Madhuram

/-- The three compression strategies the dispatcher can route to. -/
inductive Strategy
  | image
  | pdf
  | generic
deriving DecidableEq, Repr

/-- JavaScript `String.prototype.startsWith`, on the character sequences of
the two strings: `startsWithChars s p` is true when `p` is an initial
segment of `s`. -/
def startsWithChars : List Char → List Char → Bool
  | _, [] => true
  | [], _ :: _ => false
  | c :: cs, p :: ps => c = p && startsWithChars cs ps

/-- Strategy selection of `router.post('/')` (compression.js lines 104, 149,
158): `mimeType.startsWith('image/')` picks the image branch, else the exact
equality `mimeType === 'application/pdf'` picks the PDF branch, else the
generic gzip branch runs. -/
def dispatch (mimeType : String) : Strategy :=
  if startsWithChars mimeType.data "image/".data then Strategy.image
  else if mimeType = "application/pdf" then Strategy.pdf
  else Strategy.generic

/-- `const TARGET_SIZE = 10 * 1024 * 1024` (compression.js line 109). -/
def TARGET_SIZE : Nat := 10 * 1024 * 1024

/-- The fixed (width, quality) ladder of the image branch (compression.js
lines 113-145): step 1 is (5840, 90), then the guarded steps (1920, 85),
(1280, 70), (800, 50). -/
def ladder : List (Nat × Nat) := [(5840, 90), (1920, 85), (1280, 70), (800, 50)]

/-- One guarded step of the image branch: `if (stats.size > TARGET_SIZE)`
re-encode the source at the next rung (overwriting the output file) and
re-stat. The state is (rungs attempted so far, current output file size);
`enc` is the sharp encoder as a size oracle: the byte size the JPEG encode
of the source at a given (width, quality) rung produces. -/
def rungStep (enc : Nat × Nat → Nat) (st : List (Nat × Nat) × Nat) (rung : Nat × Nat) :
    List (Nat × Nat) × Nat :=
  if TARGET_SIZE < st.2 then (st.1 ++ [rung], enc rung) else st

/-- The image branch of `router.post('/')` (compression.js lines 109-148):
the first encode at (5840, 90) runs unconditionally, then the three guarded
steps of the ladder tail run in order. Returns (rungs attempted, final byte
size of the output file as re-read at line 178); the output file on disk
holds the last attempted rung's encode. -/
def imageRun (enc : Nat × Nat → Nat) : List (Nat × Nat) × Nat :=
  ladder.tail.foldl (rungStep enc) ([(5840, 90)], enc (5840, 90))

/-- Presence of the route's two files on disk: the multer temp input file
and the file at `outputPath` in the compressed output directory. -/
structure FsState where
  inputExists : Bool
  outputExists : Bool
deriving DecidableEq, Repr

/-- An HTTP error reply: `res.status(...).json({ error: ... })`. -/
structure ErrorReply where
  status : Nat
  error : String
deriving DecidableEq, Repr

/-- The catch handler of `router.post('/')` (compression.js lines 196-201):
`if (fs.existsSync(inputPath)) fs.unlinkSync(inputPath)` — so the temp input
file is gone afterwards — and the reply
`res.status(500).json({ error: 'Failed to compress file' })`. Nothing in the
block touches `outputPath`. -/
def catchHandler (st : FsState) : FsState × ErrorReply :=
  ({ st with inputExists := false }, { status := 500, error := "Failed to compress file" })

/-- The per-page tuning preset of `compressPdf` (pdfCompressor.js lines
81-93): render scale, JPEG quality, sharp resize width. -/
structure Preset where
  scale : ℚ
  quality : ℕ
  resizeWidth : ℕ
deriving DecidableEq, Repr

/-- Preset selection of `compressPdf` (pdfCompressor.js lines 81-93): the
defaults (1.5, 70, 1200) overridden to (1.0, 40, 800) when the per-page
budget is below 100 KiB, else to (1.2, 60, 1000) when below 300 KiB. -/
def selectPreset (sizePerPage : ℚ) : Preset :=
  if sizePerPage < 100 * 1024 then { scale := 1, quality := 40, resizeWidth := 800 }
  else if sizePerPage < 300 * 1024 then { scale := 12 / 10, quality := 60, resizeWidth := 1000 }
  else { scale := 15 / 10, quality := 70, resizeWidth := 1200 }

/-- `compressPdf` (pdfCompressor.js lines 59-136): compute
`sizePerPage = targetSize / pdfDocument.numPages`, select the preset once,
then loop `for (let i = 1; i <= numPages; i++)` over the source pages in
order, rendering page i at the preset and appending the result to the fresh
output document (`newPdfDoc.addPage`). `render` is the whole
render-canvas-then-sharp pipeline for one page as an oracle: source pages
have the abstract type `α`, produced raster pages the abstract type `β`. -/
def compressPdf (α β : Type) (render : Preset → α → β) (pages : List α) (targetSize : ℚ) :
    List β :=
  let sizePerPage := targetSize / (pages.length : ℚ)
  let preset := selectPreset sizePerPage
  pages.foldl (fun acc p => acc ++ [render preset p]) []

/-- `compressPdf` as the route calls it (compression.js line 155):
`compressPdf(inputPath, outputPath)` leaves `targetSize` at its declared
default `10 * 1024 * 1024` (pdfCompressor.js line 59). -/
def compressPdfDefault (α β : Type) (render : Preset → α → β) (pages : List α) : List β :=
  compressPdf α β render pages (10 * 1024 * 1024)

/-- Run-length encoding of a byte list: the building block of the modelled
gzip codec. -/
def rleEncode : List Nat → List (Nat × Nat)
  | [] => []
  | x :: xs =>
    match rleEncode xs with
    | [] => [(1, x)]
    | p :: rest => if x = p.2 then (p.1 + 1, p.2) :: rest else (1, x) :: p :: rest

/-- Decoder matching `rleEncode`. -/
def rleDecode : List (Nat × Nat) → List Nat
  | [] => []
  | p :: rest => List.replicate p.1 p.2 ++ rleDecode rest

/-- Modelled from the spec: the zlib gzip codec used by the generic branch
(`zlib.createGzip`) is an external library, not part of this repository's
sources. The spec describes it as "a single deterministic lossless
compression pass (maximum compression level)"; it is modelled here as a
deterministic lossless run-length codec whose `level` argument (the
`{ level: 9 }` option) selects effort only and does not affect what the
stream decodes back to. -/
def gzipEncode (_level : Nat) (data : List Nat) : List (Nat × Nat) :=
  rleEncode data

/-- Modelled from the spec: the matching gunzip direction of the codec. -/
def gzipDecode (stream : List (Nat × Nat)) : List Nat :=
  rleDecode stream

/-- What the generic branch writes: the output file name, the gzip level
used, and the compressed stream. -/
structure GenericOutput where
  outputFilename : List Char
  level : Nat
  data : List (Nat × Nat)
deriving DecidableEq

/-- The generic branch of `router.post('/')` (compression.js lines 158-174):
output name `${cleanName}-${timestamp}${path.extname(originalName)}.gz`, one
pipe of the source through `zlib.createGzip({ level: 9 })` into the output
file. -/
def genericBranch (cleanName : List Char) (timestamp : Nat) (ext : List Char)
    (src : List Nat) : GenericOutput :=
  { outputFilename := cleanName ++ "-".data ++ (toString timestamp).data ++ ext ++ ".gz".data
  , level := 9
  , data := gzipEncode 9 src }

/-- The technique label of the generic branch (compression.js line 174):
`mimeType === 'application/pdf' ? 'gzip (PDF)' : 'gzip'`. -/
def genericLabel (mimeType : String) : String :=
  if mimeType = "application/pdf" then "gzip (PDF)" else "gzip"

/-- `const sizes = ['Bytes', 'KB', 'MB', 'GB', 'TB']` (compression.js
line 208); reading past the end gives JavaScript's `undefined`, which
stringifies as "undefined". -/
def sizes : List String := ["Bytes", "KB", "MB", "GB", "TB"]

/-- `(x).toFixed(2)` scaled to hundredths, for the nonnegative dyadic values
`bytes / 1024^i` the route feeds it (these are exact as doubles, so the
ECMAScript rounding — nearest, ties to the larger — is exact half-up
rounding of the rational value). -/
def toFixedHundredths (q : ℚ) : ℤ :=
  ⌊q * 100 + 1 / 2⌋

/-- Rendering of `parseFloat((bytes / Math.pow(k, i)).toFixed(dm))` when
concatenated into a string: the two-decimal numeral with trailing zeros (and
a trailing decimal point) dropped, from the value in hundredths. -/
def dropTrailingZeros (n : ℕ) : String :=
  if n % 100 = 0 then toString (n / 100)
  else if n % 10 = 0 then toString (n / 100) ++ "." ++ toString (n / 10 % 10)
  else toString (n / 100) ++ "." ++ (if n % 100 < 10 then "0" else "") ++ toString (n % 100)

/-- `formatBytes` (compression.js lines 204-211) at the default
`decimals = 2`: zero renders as "0 Bytes"; otherwise
`i = Math.floor(Math.log(bytes) / Math.log(1024))` — the floor of the base
1024 logarithm, `Nat.log 1024` — and the result is the stripped two-decimal
rendering of `bytes / 1024^i` followed by `sizes[i]`. -/
def formatBytes (bytes : Nat) : String :=
  if bytes = 0 then "0 Bytes"
  else
    let i := Nat.log 1024 bytes
    let q : ℚ := (bytes : ℚ) / (1024 : ℚ) ^ i
    dropTrailingZeros (toFixedHundredths q).toNat ++ " " ++ sizes.getD i "undefined"

/-! ## Theorems -/

/-- Helper: the `addPage` loop of `compressPdf`, a left fold appending one
rendered page per source page, builds exactly the in-order image of the
source page list. -/
theorem foldl_append_eq_map {α β : Type} (f : α → β) (pages : List α) (acc : List β) :
    pages.foldl (fun a p => a ++ [f p]) acc = acc ++ pages.map f := by
  induction pages generalizing acc with
  | nil => simp
  | cons p ps ih => simp [List.foldl_cons, ih]

/-- C4: the dispatcher selects the strategy purely from the declared media
type: a type beginning with "image/" goes to the image strategy, the exact
type "application/pdf" to the PDF strategy, and every other type to the
generic gzip strategy. -/
theorem dispatch_by_media_type (m : String) :
    (startsWithChars m.data "image/".data = true → dispatch m = Strategy.image) ∧
    (m = "application/pdf" → dispatch m = Strategy.pdf) ∧
    (startsWithChars m.data "image/".data = false → m ≠ "application/pdf" →
      dispatch m = Strategy.generic) := by
  refine ⟨fun h => ?_, fun h => ?_, fun h1 h2 => ?_⟩
  · simp [dispatch, h]
  · subst h; decide
  · simp [dispatch, h1, h2]

/-- C10: whenever the generic branch runs, its technique label is exactly
"gzip": the "gzip (PDF)" arm of the ternary at compression.js line 174 is
unreachable, because every request with media type "application/pdf" was
already taken by the PDF branch. -/
theorem genericLabel_is_gzip (m : String) (h : dispatch m = Strategy.generic) :
    genericLabel m = "gzip" := by
  by_cases hpdf : m = "application/pdf"
  · subst hpdf; exact absurd h (by decide)
  · simp [genericLabel, hpdf]

/-- Witness for C10 at the concrete media type "text/plain". -/
theorem genericLabel_is_gzip_witness :
    dispatch "text/plain" = Madhuram.Strategy.generic ∧ genericLabel "text/plain" = "gzip" :=
  ⟨by decide, genericLabel_is_gzip "text/plain" (by decide)⟩

/-- C1 counterexample: when the strategy fails after an output file was
already written (`outputExists = true` — e.g. an earlier image rung wrote
`outputPath`, or gzip piped part of the stream), the catch handler leaves
that partial output file in the compressed output directory: it is not
removed, contrary to the claim. -/
theorem catch_keeps_written_output :
    ¬ ((catchHandler { inputExists := true, outputExists := true }).1.outputExists = false) := by
  decide

/-- C1 (amended): on any strategy failure the catch handler deletes the
original uploaded temp input file and replies with the single generic
compression-failure error (HTTP 500, "Failed to compress file"), but it
does not touch the output path: a partial output file already written in
the compressed output directory is left exactly as it was. -/
theorem catch_cleanup_behavior (st : FsState) :
    (catchHandler st).1.inputExists = false ∧
    (catchHandler st).2 = { status := 500, error := "Failed to compress file" } ∧
    (catchHandler st).1.outputExists = st.outputExists := by
  exact ⟨rfl, rfl, rfl⟩

/-- C3: for a PDF with N source pages, `compressPdf` produces exactly N
output pages, and page i of the output is the rasterized rendering (at the
uniformly selected preset) of page i of the source: the output is the
in-order map of the source page list. -/
theorem compressPdf_preserves_pages (α β : Type) (render : Preset → α → β)
    (pages : List α) (targetSize : ℚ) :
    compressPdf α β render pages targetSize =
      pages.map (render (selectPreset (targetSize / (pages.length : ℚ)))) ∧
    (compressPdf α β render pages targetSize).length = pages.length := by
  have h : compressPdf α β render pages targetSize =
      pages.map (render (selectPreset (targetSize / (pages.length : ℚ)))) := by
    unfold compressPdf
    simpa using foldl_append_eq_map (render (selectPreset (targetSize / (pages.length : ℚ))))
      pages []
  exact ⟨h, by rw [h]; simp⟩

/-- C2: the image branch attempts rungs strictly in ladder order
(5840, 90), (1920, 85), (1280, 70), (800, 50); a later rung runs exactly
when every earlier rung's output exceeded the 10 MiB target (so it stops as
soon as an attempt is at or under target), at most 4 and at least 1 attempts
happen, and the final size returned is the last attempted rung's encode,
whether or not it met the target. -/
theorem imageRun_ladder_order (enc : Nat × Nat → Nat) :
    (imageRun enc).1 = ladder.take (imageRun enc).1.length ∧
    1 ≤ (imageRun enc).1.length ∧
    (imageRun enc).1.length ≤ 4 ∧
    (2 ≤ (imageRun enc).1.length ↔ TARGET_SIZE < enc (5840, 90)) ∧
    (3 ≤ (imageRun enc).1.length ↔
      TARGET_SIZE < enc (5840, 90) ∧ TARGET_SIZE < enc (1920, 85)) ∧
    ((imageRun enc).1.length = 4 ↔
      TARGET_SIZE < enc (5840, 90) ∧ TARGET_SIZE < enc (1920, 85) ∧
        TARGET_SIZE < enc (1280, 70)) ∧
    (imageRun enc).2 = enc (ladder.getD ((imageRun enc).1.length - 1) (0, 0)) := by
  by_cases c1 : TARGET_SIZE < enc (5840, 90) <;>
    by_cases c2 : TARGET_SIZE < enc (1920, 85) <;>
      by_cases c3 : TARGET_SIZE < enc (1280, 70) <;>
        simp [imageRun, ladder, rungStep, c1, c2, c3]

/-- C6: `compressPdf` computes the per-page budget as the target size
divided by the source page count and selects exactly one preset from it,
applied uniformly to every page: below 100 KiB the preset is
(scale 1.0, quality 40, width 800), else below 300 KiB it is
(1.2, 60, 1000), otherwise (1.5, 70, 1200); and a smaller budget never
selects a larger scale, quality or width. -/
theorem compressPdf_preset_selection (α β : Type) (render : Preset → α → β)
    (pages : List α) (targetSize b b1 b2 : ℚ) :
    (compressPdf α β render pages targetSize =
      pages.map (render (selectPreset (targetSize / (pages.length : ℚ))))) ∧
    (b < 100 * 1024 → selectPreset b = { scale := 1, quality := 40, resizeWidth := 800 }) ∧
    (¬ b < 100 * 1024 → b < 300 * 1024 →
      selectPreset b = { scale := 12 / 10, quality := 60, resizeWidth := 1000 }) ∧
    (¬ b < 300 * 1024 →
      selectPreset b = { scale := 15 / 10, quality := 70, resizeWidth := 1200 }) ∧
    (b1 < b2 →
      (selectPreset b1).scale ≤ (selectPreset b2).scale ∧
      (selectPreset b1).quality ≤ (selectPreset b2).quality ∧
      (selectPreset b1).resizeWidth ≤ (selectPreset b2).resizeWidth) := by
  refine ⟨?_, fun h => by simp [selectPreset, h], fun h h' => by simp [selectPreset, h, h'],
    fun h => ?_, fun hlt => ?_⟩
  · unfold compressPdf
    simpa using foldl_append_eq_map
      (render (selectPreset (targetSize / (pages.length : ℚ)))) pages []
  · have h1 : ¬ b < 100 * 1024 := fun hc => h (hc.trans (by norm_num))
    simp [selectPreset, h, h1]
  · unfold selectPreset
    split_ifs <;> refine ⟨?_, ?_, ?_⟩ <;> linarith

/-- C9 counterexample: a non-positive target size is not rejected.
`compressPdf` with target 0 on a one-page document reports no error and
produces a complete output page (rendered at the most aggressive preset)
instead of failing with an invalid-input error. -/
theorem compressPdf_accepts_nonpositive_target :
    compressPdf ℕ (Preset × ℕ) (fun pr p => (pr, p)) [0] 0 =
      [({ scale := 1, quality := 40, resizeWidth := 800 }, 0)] := by
  have h : selectPreset (0 : ℚ) = { scale := 1, quality := 40, resizeWidth := 800 } := by
    unfold selectPreset
    norm_num
  simp [compressPdf, h]

/-- C9 (amended): `compressPdf`'s target size is optional and defaults to
10 MiB when unspecified (and the route always calls it without a target),
but positivity of the target is never checked: given any non-positive
target, `compressPdf` does not report an invalid-input error — it proceeds
normally, selects the most aggressive preset, and produces a full output
document. -/
theorem compressPdf_default_and_no_positivity_check (α β : Type)
    (render : Preset → α → β) (pages : List α) (t : ℚ)
    (ht : t ≤ 0) (hp : pages ≠ []) :
    compressPdfDefault α β render pages = compressPdf α β render pages (10 * 1024 * 1024) ∧
    compressPdf α β render pages t =
      pages.map (render { scale := 1, quality := 40, resizeWidth := 800 }) := by
  refine ⟨rfl, ?_⟩
  have hlen : (0 : ℚ) < (pages.length : ℚ) := by
    have : 0 < pages.length := List.length_pos.mpr hp
    exact_mod_cast this
  have hdiv : t / (pages.length : ℚ) ≤ 0 := div_nonpos_iff.mpr (Or.inr ⟨ht, le_of_lt hlen⟩)
  have hsel : selectPreset (t / (pages.length : ℚ)) =
      { scale := 1, quality := 40, resizeWidth := 800 } := by
    unfold selectPreset
    rw [if_pos (by linarith)]
  simp only [compressPdf, hsel]
  simpa using foldl_append_eq_map
    (render { scale := 1, quality := 40, resizeWidth := 800 }) pages []

/-- Witness for C9's amended theorem at the concrete target 0 on a
one-page document. -/
theorem compressPdf_default_and_no_positivity_check_witness :
    ((0 : ℚ) ≤ 0 ∧ ([0] : List ℕ) ≠ []) ∧
    (compressPdfDefault ℕ (Preset × ℕ) (fun pr p => (pr, p)) [0] =
        compressPdf ℕ (Preset × ℕ) (fun pr p => (pr, p)) [0] (10 * 1024 * 1024) ∧
      compressPdf ℕ (Preset × ℕ) (fun pr p => (pr, p)) [0] 0 =
        ([0] : List ℕ).map ((fun pr p => (pr, p)) { scale := 1, quality := 40, resizeWidth := 800 })) :=
  ⟨⟨le_refl 0, by simp⟩,
    compressPdf_default_and_no_positivity_check ℕ (Preset × ℕ) (fun pr p => (pr, p)) [0] 0
      (le_refl 0) (by simp)⟩

/-- Helper: the run-length codec standing for gzip is lossless — decoding
an encoded byte list gives back the exact original bytes. -/
theorem rleDecode_rleEncode (l : List Nat) : rleDecode (rleEncode l) = l := by
  induction l with
  | nil => rfl
  | cons x xs ih =>
    rw [rleEncode]
    cases h : rleEncode xs with
    | nil =>
      rw [h] at ih
      simp only [rleDecode] at ih
      simp [rleDecode, ← ih]
    | cons p rest =>
      rw [h] at ih
      simp only [rleDecode] at ih
      by_cases hxp : x = p.2
      · simp only [if_pos hxp, rleDecode, List.replicate_succ, List.cons_append]
        rw [ih, hxp]
      · simp only [if_neg hxp, rleDecode, List.replicate_one, List.singleton_append]
        rw [ih]

/-- C7: for every media type that is neither image/* nor application/pdf,
the dispatcher takes the generic branch, which applies exactly one gzip
pass at level 9 and writes an output named with the original extension plus
".gz" whose stream decompresses back to the exact original source bytes. -/
theorem generic_gzip_lossless (m : String)
    (h1 : startsWithChars m.data "image/".data = false)
    (h2 : m ≠ "application/pdf")
    (cleanName : List Char) (timestamp : Nat) (ext : List Char) (src : List Nat) :
    dispatch m = Strategy.generic ∧
    (genericBranch cleanName timestamp ext src).level = 9 ∧
    (genericBranch cleanName timestamp ext src).data = gzipEncode 9 src ∧
    gzipDecode (genericBranch cleanName timestamp ext src).data = src ∧
    ∃ stem, (genericBranch cleanName timestamp ext src).outputFilename =
      stem ++ ".gz".data := by
  refine ⟨by simp [dispatch, h1, h2], rfl, rfl, ?_, ?_⟩
  · exact rleDecode_rleEncode src
  · exact ⟨cleanName ++ "-".data ++ (toString timestamp).data ++ ext, by
      simp [genericBranch, List.append_assoc]⟩

/-- Witness for C7 at the concrete media type "text/plain" and the source
bytes [7, 7, 8]. -/
theorem generic_gzip_lossless_witness :
    (startsWithChars "text/plain".data "image/".data = false ∧
      "text/plain" ≠ "application/pdf") ∧
    (dispatch "text/plain" = Strategy.generic ∧
      (genericBranch "notes".data 0 ".txt".data [7, 7, 8]).level = 9 ∧
      (genericBranch "notes".data 0 ".txt".data [7, 7, 8]).data = gzipEncode 9 [7, 7, 8] ∧
      gzipDecode (genericBranch "notes".data 0 ".txt".data [7, 7, 8]).data = [7, 7, 8] ∧
      ∃ stem, (genericBranch "notes".data 0 ".txt".data [7, 7, 8]).outputFilename =
        stem ++ ".gz".data) :=
  ⟨⟨by decide, by decide⟩,
    generic_gzip_lossless "text/plain" (by decide) (by decide) "notes".data 0 ".txt".data
      [7, 7, 8]⟩

/-- Helper: evaluation scheme for `formatBytes` — once the unit index `i`
is located by the power bounds and the hundredths value `n` by the floor
bounds, the result is the stripped rendering of `n` with unit `sizes[i]`. -/
theorem formatBytes_eval (b i n : ℕ)
    (h1 : (1024 : ℕ) ^ i ≤ b) (h2 : b < 1024 ^ (i + 1))
    (h3 : (n : ℚ) ≤ (b : ℚ) / (1024 : ℚ) ^ i * 100 + 1 / 2)
    (h4 : (b : ℚ) / (1024 : ℚ) ^ i * 100 + 1 / 2 < (n : ℚ) + 1) :
    formatBytes b = dropTrailingZeros n ++ " " ++ sizes.getD i "undefined" := by
  have hb : b ≠ 0 := by
    have hpow : 0 < (1024 : ℕ) ^ i := Nat.pos_pow_of_pos i (by norm_num)
    omega
  have hlog : Nat.log 1024 b = i := Nat.log_eq_of_pow_le_of_lt_pow h1 h2
  have hfl : toFixedHundredths ((b : ℚ) / (1024 : ℚ) ^ i) = (n : ℤ) := by
    unfold toFixedHundredths
    rw [Int.floor_eq_iff]
    constructor
    · exact_mod_cast h3
    · push_cast
      exact h4
  unfold formatBytes
  rw [if_neg hb]
  simp only [hlog, hfl, Int.toNat_natCast]

/-- C8: `formatBytes` renders byte counts with binary (1024-based) units and
two decimals with trailing zeros stripped: 0 gives "0 Bytes", 1536 gives
"1.5 KB", 1048576 gives "1 MB"; further sample points cover the Bytes, GB
and TB units and a rounding case where a single trailing zero is stripped
("1.1 KB" from 1126 bytes). -/
theorem formatBytes_samples :
    formatBytes 0 = "0 Bytes" ∧
    formatBytes 1536 = "1.5 KB" ∧
    formatBytes 1048576 = "1 MB" ∧
    formatBytes 1 = "1 Bytes" ∧
    formatBytes 1126 = "1.1 KB" ∧
    formatBytes 1073741824 = "1 GB" ∧
    formatBytes 1099511627776 = "1 TB" := by
  refine ⟨rfl, ?_, ?_, ?_, ?_, ?_, ?_⟩
  · rw [formatBytes_eval 1536 1 150 (by norm_num) (by norm_num) (by norm_num) (by norm_num)]
    decide
  · rw [formatBytes_eval 1048576 2 100 (by norm_num) (by norm_num) (by norm_num) (by norm_num)]
    decide
  · rw [formatBytes_eval 1 0 100 (by norm_num) (by norm_num) (by norm_num) (by norm_num)]
    decide
  · rw [formatBytes_eval 1126 1 110 (by norm_num) (by norm_num) (by norm_num) (by norm_num)]
    decide
  · rw [formatBytes_eval 1073741824 3 100 (by norm_num) (by norm_num) (by norm_num)
      (by norm_num)]
    decide
  · rw [formatBytes_eval 1099511627776 4 100 (by norm_num) (by norm_num) (by norm_num)
      (by norm_num)]
    decide

end Madhuram
